import Mathlib

/-!
Verification of the repository's single source file,
`KuzuTestApp/KuzuTestApp/KuzuTestApp-Bridging-Header.h`, a C bridging
header.  The file is embedded byte-for-byte as a list of text lines, and
the relevant fragment of the C preprocessor (include guards via
`#ifndef`/`#define`/`#endif`, `#include`/`#import` of headers, comment
and blank lines) is modelled as a small step function over a compilation
state.  The external header `KuzuHeaders/kuzu.h` is not part of the
repository, so its effect is abstracted as an arbitrary assignment of
defined preprocessor names and visible declarations to header paths.

All text processing is written structurally over `List Char` so that
every definition evaluates inside the kernel.
-/

namespace KuzuBridge

/-- The single-quote character, used in the text of line 7 of the header. -/
def aposChar : Char := Char.ofNat 39

/-- Line 7 of the header file (contains an apostrophe). -/
def line7 : String :=
  "// #import <c_api/kuzu.h> // Didn" ++ String.singleton aposChar ++ "t work"

/-- The eleven lines of text of `KuzuTestApp-Bridging-Header.h`, exactly as
in the repository (the last line ends with a space and is not
newline-terminated in the file). -/
def srcLines : List String := [
  "#ifndef KuzuTestApp_Bridging_Header_h",
  "#define KuzuTestApp_Bridging_Header_h",
  "",
  "// Using local copy of the header with suggested path",
  "#include \"KuzuHeaders/kuzu.h\"",
  "// #import <Kuzu/kuzu.h> // Previous attempt",
  line7,
  "// #import <kuzu.h> // Reverted based on linter errors",
  "// #import <Kuzu/c_api/kuzu.h> // Previous attempt",
  "",
  "#endif /* KuzuTestApp_Bridging_Header_h */ "]

/-- The full 397-byte content of the source file: the eleven lines joined
by the ten newline characters, with no trailing newline. -/
def srcText : String := String.intercalate "\n" srcLines

/-- The include-guard name used by the header. -/
def guardName : String := "KuzuTestApp_Bridging_Header_h"

/-- The path of the one header the file includes. -/
def kuzuPath : String := "KuzuHeaders/kuzu.h"

/-- Whitespace as the C preprocessor treats it inside a line. -/
def isWSChar (c : Char) : Bool :=
  c == ' ' || c == '\t' || c == '\r' || c == '\n'

/-- Drop leading whitespace. -/
def trimL (cs : List Char) : List Char := cs.dropWhile isWSChar

/-- Drop leading and trailing whitespace. -/
def trimChars (cs : List Char) : List Char :=
  ((trimL cs).reverse.dropWhile isWSChar).reverse

/-- `hasLead pat cs` holds when `pat` is an initial segment of `cs`. -/
def hasLead : List Char → List Char → Bool
  | [], _ => true
  | _ :: _, [] => false
  | p :: ps, c :: cs => p == c && hasLead ps cs

/-- `hasSub pat cs` holds when `pat` occurs contiguously inside `cs`. -/
def hasSub (pat : List Char) : List Char → Bool
  | [] => pat.isEmpty
  | c :: cs => hasLead pat (c :: cs) || hasSub pat cs

/-- A line of a C header, as the preprocessor classifies it. -/
inductive PPLine where
  | ifndefD : String → PPLine
  | defineD : String → PPLine
  | includeD : String → PPLine
  | endifD : PPLine
  | commentL : PPLine
  | blankL : PPLine
  | otherDirective : String → PPLine
  | codeL : String → PPLine
deriving DecidableEq, Repr

/-- The `pqr` part of an include argument `"pqr"` or `<pqr>`. -/
def extractPath (cs : List Char) : String :=
  let t := trimL cs
  if hasLead ['"'] t then ⟨(t.drop 1).takeWhile (fun c => c ≠ '"')⟩
  else if hasLead ['<'] t then ⟨(t.drop 1).takeWhile (fun c => c ≠ '>')⟩
  else ⟨t.takeWhile (fun c => ¬ isWSChar c)⟩

/-- The identifier naming the guard in `#ifndef X` / `#define X`. -/
def guardArg (cs : List Char) : String :=
  ⟨(trimL cs).takeWhile (fun c => ¬ isWSChar c)⟩

/-- Classify one line of C header text the way the preprocessor does:
blank, `//` comment, one of the directives the file uses (`#ifndef`,
`#define`, `#include`/`#import`, `#endif`), another directive, or actual
C code. -/
def parseLine (l : String) : PPLine :=
  let t := trimChars l.data
  if t.isEmpty then .blankL
  else if hasLead "//".data t then .commentL
  else if hasLead "#ifndef".data t then .ifndefD (guardArg (t.drop 7))
  else if hasLead "#define".data t then .defineD (guardArg (t.drop 7))
  else if hasLead "#include".data t then .includeD (extractPath (t.drop 8))
  else if hasLead "#import".data t then .includeD (extractPath (t.drop 7))
  else if hasLead "#endif".data t then .endifD
  else if hasLead "#".data t then .otherDirective ⟨t⟩
  else .codeL ⟨t⟩

/-- The header file as the preprocessor sees it: each line classified. -/
def parsedSrc : List PPLine := srcLines.map parseLine

theorem parsedSrc_eq : parsedSrc =
    [.ifndefD guardName, .defineD guardName, .blankL, .commentL,
     .includeD kuzuPath, .commentL, .commentL, .commentL, .commentL,
     .blankL, .endifD] := by
  decide

/-- What including a header contributes to a compilation: the
preprocessor names it defines and the declarations it makes visible.
The content of the external `KuzuHeaders/kuzu.h` is unknown, so claims
quantify over all such assignments. -/
structure HeaderAPI where
  defines : List String
  decls : List String
deriving DecidableEq, Repr

/-- The observable compile-time state while preprocessing a translation
unit: the defined preprocessor names and the declarations made visible
so far. -/
structure CompState where
  defined : List String
  visible : List String
deriving DecidableEq, Repr

/-- A conditional-inclusion region is skipped when any enclosing
conditional frame is inactive. -/
def skipping (stack : List Bool) : Bool := stack.any (fun b => b)

/-- Run the preprocessor over classified lines.  `stack` holds one frame
per open conditional (`true` = the region is being skipped).  An
`#endif` with no open conditional, or reaching the end of the file with
a conditional still open, is a preprocessing error (`none`). -/
def ppRun (env : String → HeaderAPI) :
    List PPLine → List Bool → CompState → Option CompState
  | [], [], st => some st
  | [], _ :: _, _ => none
  | .ifndefD m :: ls, stack, st =>
      ppRun env ls ((skipping stack || decide (m ∈ st.defined)) :: stack) st
  | .defineD m :: ls, stack, st =>
      if skipping stack then ppRun env ls stack st
      else ppRun env ls stack ⟨st.defined ++ [m], st.visible⟩
  | .includeD p :: ls, stack, st =>
      if skipping stack then ppRun env ls stack st
      else ppRun env ls stack
        ⟨st.defined ++ (env p).defines, st.visible ++ (env p).decls⟩
  | .endifD :: ls, _ :: rest, st => ppRun env ls rest st
  | .endifD :: _, [], _ => none
  | .commentL :: ls, stack, st => ppRun env ls stack st
  | .blankL :: ls, stack, st => ppRun env ls stack st
  | .otherDirective _ :: ls, stack, st => ppRun env ls stack st
  | .codeL _ :: ls, stack, st => ppRun env ls stack st

/-- Process the bridging header in compile state `st`, with `env` giving
the effect of the headers it includes. -/
def processBridgingHeader (env : String → HeaderAPI) (st : CompState) :
    Option CompState :=
  ppRun env parsedSrc [] st

/-- Spec-side description of the contract (from the spec's words): a
translation unit that directly includes `KuzuHeaders/kuzu.h` sees
exactly that header's declarations added to what was already visible. -/
def directKuzuVisible (env : String → HeaderAPI) (st : CompState) :
    List String :=
  st.visible ++ (env kuzuPath).decls

/-- The include arguments of the file's active (uncommented) include
directives, in order. -/
def activeIncludes : List String :=
  parsedSrc.filterMap (fun pl =>
    match pl with
    | .includeD p => some p
    | _ => none)

/-- The names the file itself defines with active `#define` directives. -/
def ownDefines : List String :=
  parsedSrc.filterMap (fun pl =>
    match pl with
    | .defineD m => some m
    | _ => none)

/-- Whether a classified line is actual C code (a declaration,
definition, or statement) rather than a directive, comment or blank. -/
def isOwnCode (pl : PPLine) : Bool :=
  match pl with
  | .codeL _ => true
  | _ => false

/-- Whether a line textually mentions an include directive, commented
out or not. -/
def isIncludeText (l : String) : Bool :=
  hasSub "#include".data l.data || hasSub "#import".data l.data

/-- The body of a `//` comment line. -/
def commentBody (l : String) : Option (List Char) :=
  let t := trimChars l.data
  if hasLead "//".data t then some (trimL (t.drop 2)) else none

/-- The include path recorded in a commented-out include directive, if
the line is one. -/
def commentedInclude (l : String) : Option String :=
  match commentBody l with
  | none => none
  | some b =>
    if hasLead "#include".data b then some (extractPath (b.drop 8))
    else if hasLead "#import".data b then some (extractPath (b.drop 7))
    else none

/-- All include paths recorded in commented-out include directives, in
order of appearance. -/
def commentedIncludePaths : List String :=
  srcLines.filterMap commentedInclude

/-- Split a character sequence into the lines of text it spells: one
segment per stretch between newline characters.  A text with `k`
newlines has `k + 1` lines of text. -/
def splitNL : List Char → List (List Char)
  | [] => [[]]
  | c :: cs =>
    let r := splitNL cs
    if c == '\n' then [] :: r else (c :: r.headD []) :: r.tail

/-- The lines of text of a string. -/
def textLines (s : String) : List String := (splitNL s.data).map (fun cs => ⟨cs⟩)

/-- The number of newline characters in a string. -/
def newlineCount (s : String) : Nat :=
  (s.data.filter (fun c => c == '\n')).length

theorem textLines_srcText : textLines srcText = srcLines := by decide

theorem ownDefines_eq : ownDefines = [guardName] := by decide

/-- Processing the header from a state in which the guard is not yet
defined succeeds, defines the guard, and adds exactly the included
header's defines and declarations. -/
theorem pp_fresh (env : String → HeaderAPI) (st : CompState)
    (h : guardName ∉ st.defined) :
    processBridgingHeader env st =
      some ⟨st.defined ++ [guardName] ++ (env kuzuPath).defines,
            st.visible ++ (env kuzuPath).decls⟩ := by
  rw [processBridgingHeader, parsedSrc_eq]
  simp [ppRun, skipping, h]

/-- Processing the header from a state in which the guard is already
defined succeeds and changes nothing. -/
theorem pp_guarded (env : String → HeaderAPI) (st : CompState)
    (h : guardName ∈ st.defined) :
    processBridgingHeader env st = some st := by
  rw [processBridgingHeader, parsedSrc_eq]
  simp [ppRun, skipping, h]

/-- A sample effect of the external header, for concrete witnesses: it
defines one guard of its own and declares two API functions. -/
def envX : String → HeaderAPI := fun p =>
  if p == kuzuPath then
    ⟨["KUZU_H"], ["kuzu_database_init", "kuzu_connection_query"]⟩
  else ⟨[], []⟩

/-- The compile state of a translation unit that has seen nothing yet. -/
def stEmpty : CompState := ⟨[], []⟩

/-- C1: the file has exactly one active (uncommented) include directive,
whose target is `KuzuHeaders/kuzu.h`; every line that textually mentions
an include directive is either that one active include or a commented-out
line, so no other header is included by the file. -/
theorem c1_single_active_include : activeIncludes = [kuzuPath] ∧
    ∀ l ∈ srcLines, isIncludeText l = true →
      parseLine l = PPLine.includeD kuzuPath ∨ parseLine l = PPLine.commentL := by
  decide

/-- Witness for C1 at the first commented-out import line. -/
theorem c1_single_active_include_witness :
    parseLine "// #import <Kuzu/kuzu.h> // Previous attempt" =
      PPLine.includeD kuzuPath ∨
    parseLine "// #import <Kuzu/kuzu.h> // Previous attempt" = PPLine.commentL :=
  c1_single_active_include.2 "// #import <Kuzu/kuzu.h> // Previous attempt"
    (by decide) (by decide)

/-- C2: for any translation unit that processes the bridging header (one
that has not already defined its guard), the declarations made visible
are exactly those made visible by directly including
`KuzuHeaders/kuzu.h`: every declaration of the included header becomes
visible, and the bridging header adds none of its own. -/
theorem c2_bridging_refines_direct (env : String → HeaderAPI)
    (st : CompState) (h : guardName ∉ st.defined) :
    (processBridgingHeader env st).map CompState.visible =
      some (directKuzuVisible env st) := by
  rw [pp_fresh env st h]
  rfl

/-- Witness for C2 with the sample external header and a fresh unit. -/
theorem c2_bridging_refines_direct_witness :
    (processBridgingHeader envX stEmpty).map CompState.visible =
      some (directKuzuVisible envX stEmpty) :=
  c2_bridging_refines_direct envX stEmpty (by decide)

/-- C3: the file contains no C code of its own — no functions, variables,
types or control logic: every one of its lines classifies as a
preprocessor directive (the include guard's `#ifndef`/`#define`/`#endif`
and one `#include`), a comment, or a blank line. -/
theorem c3_only_directives_comments_blanks :
    (parsedSrc.all (fun pl => ! isOwnCode pl)) = true ∧
    parsedSrc = [.ifndefD guardName, .defineD guardName, .blankL, .commentL,
      .includeD kuzuPath, .commentL, .commentL, .commentL, .commentL,
      .blankL, .endifD] := by
  decide

/-- C4: the commented-out include directives of the file record exactly
the four prior paths `Kuzu/kuzu.h`, `c_api/kuzu.h`, `kuzu.h` and
`Kuzu/c_api/kuzu.h`, in that order, and no other commented-out include
path appears. -/
theorem c4_commented_include_paths :
    commentedIncludePaths =
      ["Kuzu/kuzu.h", "c_api/kuzu.h", "kuzu.h", "Kuzu/c_api/kuzu.h"] := by
  decide

/-- C5 as stated is false: processing the header does not leave all
observable state other than declaration visibility unchanged, because it
defines the include-guard name.  Concretely, from the empty state with
the sample external header the defined-name environment changes. -/
theorem c5_counterexample :
    ¬ ((processBridgingHeader envX stEmpty).map CompState.defined =
        some stEmpty.defined) := by
  decide

/-- C5 (amended): processing the header in any fresh state succeeds (no
error), consumes nothing else, and changes the state only by making the
included header's declarations visible and by the macro definitions of
the inclusion — the file's include guard plus whatever the included
header defines. -/
theorem c5_frame_amended (env : String → HeaderAPI) (st : CompState)
    (h : guardName ∉ st.defined) :
    processBridgingHeader env st =
      some ⟨st.defined ++ [guardName] ++ (env kuzuPath).defines,
            st.visible ++ (env kuzuPath).decls⟩ :=
  pp_fresh env st h

/-- Witness for the amended C5 with the sample external header. -/
theorem c5_frame_amended_witness :
    processBridgingHeader envX stEmpty =
      some ⟨stEmpty.defined ++ [guardName] ++ (envX kuzuPath).defines,
            stEmpty.visible ++ (envX kuzuPath).decls⟩ :=
  c5_frame_amended envX stEmpty (by decide)

/-- C6 as stated is false: splitting the 397-byte file content at its
newline characters yields 11 lines of text, not 10. -/
theorem c6_counterexample : ¬ ((textLines srcText).length = 10) := by
  decide

/-- C6 (amended): the bridging header consists of exactly 11 lines of
text; equivalently it contains exactly 10 newline characters, the final
line being unterminated. -/
theorem c6_line_count :
    (textLines srcText).length = 11 ∧ newlineCount srcText = 10 := by
  decide

/-- C7: inclusion of the header is idempotent: processing it again in
the state produced by a first processing changes nothing, because the
include guard `KuzuTestApp_Bridging_Header_h` makes every re-inclusion
expand to nothing; so once-then-again equals once, for every starting
state and every behaviour of the included header. -/
theorem c7_inclusion_idempotent (env : String → HeaderAPI) (st : CompState) :
    (processBridgingHeader env st).bind (processBridgingHeader env) =
      processBridgingHeader env st := by
  by_cases h : guardName ∈ st.defined
  · rw [pp_guarded env st h]
    exact pp_guarded env st h
  · rw [pp_fresh env st h]
    exact pp_guarded env _ (by simp)

/-- C8: the only name the file's own text defines is its include guard
`KuzuTestApp_Bridging_Header_h`; after a first processing the
defined-name environment has gained exactly that own define plus the
defines of the included `KuzuHeaders/kuzu.h` (which come from the
included header's text, not this file's). -/
theorem c8_guard_only_define : ownDefines = [guardName] ∧
    ∀ (env : String → HeaderAPI) (st : CompState), guardName ∉ st.defined →
      (processBridgingHeader env st).map CompState.defined =
        some (st.defined ++ ownDefines ++ (env kuzuPath).defines) := by
  refine ⟨ownDefines_eq, ?_⟩
  intro env st h
  rw [pp_fresh env st h, ownDefines_eq]
  rfl

/-- Witness for C8 with the sample external header and a fresh unit. -/
theorem c8_guard_only_define_witness :
    (processBridgingHeader envX stEmpty).map CompState.defined =
      some (stEmpty.defined ++ ownDefines ++ (envX kuzuPath).defines) :=
  c8_guard_only_define.2 envX stEmpty (by decide)

/-- C9: the file introduces no concurrency constructs and no shared
mutable resources: every line is guard bookkeeping, the single include,
a comment, or blank — in particular there is no C code (no threads,
atomics, or shared objects) and not even another directive (e.g. an OpenMP
`#pragma`), so no operations originate in this file that could
interleave. -/
theorem c9_no_concurrency_constructs : ∀ pl ∈ parsedSrc,
    pl = PPLine.commentL ∨ pl = PPLine.blankL ∨ pl = PPLine.ifndefD guardName ∨
    pl = PPLine.defineD guardName ∨ pl = PPLine.includeD kuzuPath ∨
    pl = PPLine.endifD := by
  decide

/-- Witness for C9 at the file's closing `#endif` line. -/
theorem c9_no_concurrency_constructs_witness :
    PPLine.endifD = PPLine.commentL ∨ PPLine.endifD = PPLine.blankL ∨
    PPLine.endifD = PPLine.ifndefD guardName ∨
    PPLine.endifD = PPLine.defineD guardName ∨
    PPLine.endifD = PPLine.includeD kuzuPath ∨
    PPLine.endifD = PPLine.endifD :=
  c9_no_concurrency_constructs PPLine.endifD (by decide)

end KuzuBridge
